import Mathlib

/-!
Shallow embedding of the voice-agent session bridge (`main.py`) and its two
skill registries (`pharmacy_functions.py`, `appointment_functions.py`).

Modelling conventions:
* Python byte strings are `List Nat` with each element `< 256`.
* Python `str` is Lean `String`; helper functions mirror `str.lower`,
  `str.strip`, `str.upper`, `str.title` and the substring test `a in b`.
* A Python value that may flow through a JSON parameter mapping is a `Value`
  (string or integer), enough to express the dynamic-typing behaviour the
  dispatchers exhibit.
* Raising an exception is modelled with `Except PyErr`; a `try/except`
  block is a `match` on that result.
* Dollar prices such as `5.99` are carried as exact cents (`599`); the 8%
  tax computation is done in integer cents, which only affects the rendered
  confirmation text, never control flow.
-/

namespace Bridge

/-- Characters stripped by Python `str.strip()` (the ASCII whitespace the
sources can actually contain). -/
def pySpace (c : Char) : Bool :=
  c = ' ' || c = '\t' || c = '\n' || c = '\r'

/-- Python `str.strip()`. -/
def pyStrip (s : String) : String :=
  ⟨((s.toList.dropWhile pySpace).reverse.dropWhile pySpace).reverse⟩

/-- Python `str.lower()` (ASCII). -/
def pyLower (s : String) : String :=
  ⟨s.toList.map Char.toLower⟩

/-- Python `str.upper()` (ASCII). -/
def pyUpper (s : String) : String :=
  ⟨s.toList.map Char.toUpper⟩

/-- Helper for `pyTitle`: the Bool records whether the previous character
was alphabetic. -/
def pyTitleGo : Bool → List Char → List Char
  | _, [] => []
  | prevAlpha, c :: cs =>
    (if c.isAlpha then (if prevAlpha then c.toLower else c.toUpper) else c)
      :: pyTitleGo c.isAlpha cs

/-- Python `str.title()`. -/
def pyTitle (s : String) : String :=
  ⟨pyTitleGo false s.toList⟩

/-- Python `a in b` on strings: `a` occurs as a contiguous substring of `b`. -/
def strIn (a b : String) : Bool :=
  b.toList.tails.any (fun t => a.toList.isPrefixOf t)

/-- `drug_name.lower().strip()`, the key normalisation used by the pharmacy
skills (`pharmacy_functions.py` lines 51 and 91). -/
def normKey (s : String) : String := pyStrip (pyLower s)

/-! Base64, as `main.py` uses `base64.b64encode` and `base64.b64decode`. -/

/-- The base64 alphabet in index order. -/
def b64Table : List Char :=
  "ABCDEFGHIJKLMNOPQRSTUVWXYZabcdefghijklmnopqrstuvwxyz0123456789+/".toList

/-- The alphabet character for a 6-bit value. -/
def encChar (v : Nat) : Char := b64Table.getD v 'A'

/-- The 6-bit value of an alphabet character (`none` for anything else,
including the padding character). -/
def decChar (c : Char) : Option Nat := b64Table.findIdx? (fun d => d = c)

/-- Python `base64.b64encode` on a byte list, producing the padded character
stream. -/
def b64encodeList : List Nat → List Char
  | [] => []
  | [b0] => [encChar (b0 / 4), encChar (b0 % 4 * 16), '=', '=']
  | [b0, b1] =>
      [encChar (b0 / 4), encChar (b0 % 4 * 16 + b1 / 16), encChar (b1 % 16 * 4), '=']
  | b0 :: b1 :: b2 :: rest =>
      encChar (b0 / 4) :: encChar (b0 % 4 * 16 + b1 / 16) ::
      encChar (b1 % 16 * 4 + b2 / 64) :: encChar (b2 % 64) :: b64encodeList rest

/-- Python `base64.b64decode` on a character list: groups of four alphabet
characters, padding only allowed in the final group; `none` models the
`binascii.Error` raised on malformed input. -/
def b64decodeList : List Char → Option (List Nat)
  | [] => some []
  | c0 :: c1 :: c2 :: c3 :: rest =>
    match decChar c0, decChar c1 with
    | some v0, some v1 =>
      if c2 = '=' then
        if c3 = '=' && rest.isEmpty then some [v0 * 4 + v1 / 16] else none
      else
        match decChar c2 with
        | some v2 =>
          if c3 = '=' then
            if rest.isEmpty then some [v0 * 4 + v1 / 16, v1 % 16 * 16 + v2 / 4] else none
          else
            match decChar c3, b64decodeList rest with
            | some v3, some tail =>
                some ((v0 * 4 + v1 / 16) :: (v1 % 16 * 16 + v2 / 4) :: (v2 % 4 * 64 + v3) :: tail)
            | _, _ => none
        | none => none
    | _, _ => none
  | _ => none

/-- Python `base64.b64encode(bytes).decode("utf-8")`, the outbound encoding of
`deepgram_to_twilio` (`main.py` line 156). -/
def b64encode (bs : List Nat) : String := ⟨b64encodeList bs⟩

/-- Python `base64.b64decode(payload)`, the inbound decoding of
`twilio_to_deepgram` (`main.py` line 135). -/
def b64decode (s : String) : Option (List Nat) := b64decodeList s.toList

/-! Python values and exceptions. -/

/-- A JSON-borne Python value, as it can appear in a function-call
parameter mapping.  Strings and integers are enough to exercise every
dynamically-typed code path the dispatchers have. -/
inductive Value where
  | str (s : String)
  | int (n : Int)
  deriving DecidableEq

/-- Rendering by an f-string, i.e. Python `str(v)`. -/
def renderValue : Value → String
  | .str s => s
  | .int n => toString n

/-- The exceptions the embedded code can raise.  The payload is the
`str(e)` message text (CPython additionally wraps identifiers in single
quotes; the quotes are immaterial here and omitted). -/
inductive PyErr where
  | typeError (msg : String)
  | attributeError (msg : String)
  deriving DecidableEq

/-- Python `str(e)`. -/
def pyMsg : PyErr → String
  | .typeError m => m
  | .attributeError m => m

/-- A keyword-parameter mapping (`parameters: dict`), in insertion order. -/
abbrev Params := List (String × Value)

/-! Pharmacy registry (`pharmacy_functions.py`). -/

/-- One `INVENTORY` entry.  `priceCents` carries e.g. `5.99` as `599`. -/
structure Drug where
  priceCents : Nat
  stock : Int
  requiresPrescription : Bool
  deriving DecidableEq

/-- One `ORDERS` entry (the `created_at` timestamp is dropped: nothing ever
reads it). -/
structure PharmOrder where
  customer : Value
  drug : String
  quantity : Int
  totalCents : Int
  status : String
  pickup : String
  deriving DecidableEq

/-- The pharmacy module state: the `INVENTORY` and `ORDERS` tables, plus
two oracles standing for the effects `random.choices` (fresh order ids)
and `datetime.now() + 30 minutes` (the rendered pickup time). -/
structure PharmacyState where
  inventory : List (String × Drug)
  orders : List (String × PharmOrder)
  freshIds : List String
  nowText : String
  deriving DecidableEq

/-- The initial `INVENTORY` table, in source order. -/
def pharmacyInventory : List (String × Drug) :=
  [("aspirin", ⟨599, 50, false⟩),
   ("ibuprofen", ⟨799, 20, false⟩),
   ("acetaminophen", ⟨649, 35, false⟩),
   ("tylenol", ⟨899, 40, false⟩),
   ("advil", ⟨949, 25, false⟩),
   ("benadryl", ⟨1199, 15, false⟩),
   ("zyrtec", ⟨1499, 30, false⟩),
   ("claritin", ⟨1299, 28, false⟩),
   ("pepto bismol", ⟨849, 22, false⟩),
   ("tums", ⟨499, 60, false⟩),
   ("amoxicillin", ⟨1599, 10, true⟩),
   ("lisinopril", ⟨1249, 8, true⟩),
   ("metformin", ⟨999, 12, true⟩)]

/-- The module state at import time. -/
def pharmacyInit : PharmacyState :=
  { inventory := pharmacyInventory, orders := [], freshIds := [], nowText := "12:00 PM" }

/-- The lookup shared by `get_drug_info` and `place_order`: exact key
match first, then the first entry whose name contains, or is contained
in, the normalised key (lines 54-62 and 92-100). -/
def matchDrug (inv : List (String × Drug)) (key : String) : Option (String × Drug) :=
  match inv.find? (fun p => p.1 = key) with
  | some p => some p
  | none => inv.find? (fun p => strIn key p.1 || strIn p.1 key)

/-- Mutation `INVENTORY[drug_key]["stock"] -= quantity` (line 140): the dict holds
one entry per key, so only the first entry with the key is updated. -/
def updateStock : List (String × Drug) → String → Int → List (String × Drug)
  | [], _, _ => []
  | p :: rest, k, q =>
    if p.1 = k then (p.1, { p.2 with stock := p.2.stock - q }) :: rest
    else p :: updateStock rest k q

/-- Two-digit cents field. -/
def pad2 (n : Nat) : String :=
  if n < 10 then "0" ++ toString n else toString n

/-- Rendering of the price field with two decimals, for a nonnegative cent amount. -/
def fmtPrice (c : Nat) : String :=
  "$" ++ toString (c / 100) ++ "." ++ pad2 (c % 100)

/-- Rendering of the order total with two decimals, for a cent amount that
went through the tax computation. -/
def fmtTotal (c : Int) : String :=
  "$" ++ toString (c / 100) ++ "." ++ pad2 (c % 100).toNat

/-- The in-stock / out-of-stock rendering of lines 64-74. -/
def drugInfoText (key : String) (d : Drug) : String :=
  if 0 < d.stock then
    pyTitle key ++ " is " ++ fmtPrice d.priceCents ++ " and we have " ++
      toString d.stock ++ " units in stock" ++
      (if d.requiresPrescription then " (requires prescription)" else "") ++ "."
  else
    "Sorry, " ++ pyTitle key ++ " is currently out of stock."

/-- Function `get_drug_info` (lines 41-76).  It only reads the inventory. -/
def get_drug_info (st : PharmacyState) (drug_name : String) : String :=
  match matchDrug st.inventory (normKey drug_name) with
  | some (k, d) => drugInfoText k d
  | none =>
      "Sorry, we don\x27t carry " ++ drug_name ++
        ". Would you like me to suggest an alternative?"

/-- Function `get_drug_info` as called with a dynamically-typed argument: a
non-string raises `AttributeError` at `drug_name.lower()`. -/
def get_drug_infoV (st : PharmacyState) (v : Value) : Except PyErr String :=
  match v with
  | .int _ => .error (.attributeError "int object has no attribute lower")
  | .str s => .ok (get_drug_info st s)

/-- Function `place_order` (lines 79-147) with dynamically-typed arguments.  A
non-string drug name raises at `.lower()`; a non-integer quantity raises
at the `stock < quantity` comparison (line 111).  Every raise happens
before the `ORDERS` / `INVENTORY` mutations, so an error leaves the state
unchanged.  The fresh order id and the pickup time come from the state
oracles. -/
def place_orderV (st : PharmacyState) (vDrug vQty vCust : Value) :
    Except PyErr (PharmacyState × String) :=
  match vDrug with
  | .int _ => .error (.attributeError "int object has no attribute lower")
  | .str drug_name =>
    match matchDrug st.inventory (normKey drug_name) with
    | none => .ok (st, "Sorry, we don\x27t carry " ++ drug_name ++ ". Cannot place order.")
    | some (k, d) =>
      if d.requiresPrescription then
        .ok (st, pyTitle k ++ " requires a prescription. " ++
          "Please bring your prescription to the pharmacy to complete this order.")
      else
        match vQty with
        | .str _ => .error (.typeError "not supported between instances of int and str")
        | .int q =>
          if d.stock < q then
            .ok (st, "Sorry, we only have " ++ toString d.stock ++ " units of " ++
              pyTitle k ++ " in stock. Would you like to order " ++
              toString d.stock ++ " instead?")
          else
            let oid := st.freshIds.headD "XXXXXX"
            let totalCents : Int := d.priceCents * q * 108 / 100
            .ok ({ st with
                    inventory := updateStock st.inventory k q,
                    orders := st.orders ++ [(oid,
                      { customer := vCust, drug := k, quantity := q,
                        totalCents := totalCents, status := "processing",
                        pickup := st.nowText })],
                    freshIds := st.freshIds.tail },
                 "Order confirmed! Order ID: " ++ oid ++ ". " ++ toString q ++
                   " units of " ++ pyTitle k ++ " for " ++ renderValue vCust ++
                   ". Total: " ++ fmtTotal totalCents ++
                   " including tax. Ready for pickup at " ++ st.nowText ++ ".")

/-- Function `check_order_status` (lines 150-174) with a dynamically-typed
argument: a non-string raises at `.upper()`. -/
def check_order_statusV (st : PharmacyState) (v : Value) : Except PyErr String :=
  match v with
  | .int _ => .error (.attributeError "int object has no attribute upper")
  | .str order_id =>
    match st.orders.find? (fun p => p.1 = pyStrip (pyUpper order_id)) with
    | none => .ok ("I couldn\x27t find an order with ID " ++ order_id ++
        ". Please double-check the order number and try again.")
    | some (_, o) => .ok ("Order " ++ pyUpper order_id ++ " for " ++
        renderValue o.customer ++ ": " ++ toString o.quantity ++ " units of " ++
        pyTitle o.drug ++ ". Status: " ++ o.status ++
        ". Ready for pickup at " ++ o.pickup ++ ". Total: " ++ fmtTotal o.totalCents ++ ".")

/-! Keyword-argument binding of `func(**parameters)`. -/

/-- One declared parameter of a skill signature. -/
structure ParamSpec where
  pname : String
  required : Bool
  deriving DecidableEq

/-- The CPython joining of missing-argument names (`a`, `a and b`,
`a, b, and c` — rendered here without the quotes). -/
def joinNames : List String → String
  | [] => ""
  | [x] => x
  | [x, y] => x ++ " and " ++ y
  | x :: rest => x ++ ", " ++ joinNames rest

/-- The `TypeError`s CPython raises while binding `func(**parameters)`
against a signature: an unexpected keyword is reported first, then
missing required arguments. -/
def bindCheck (fname : String) (sig : List ParamSpec) (params : Params) :
    Except PyErr Unit :=
  match params.find? (fun kv => !(sig.any (fun s => s.pname = kv.1))) with
  | some kv => .error (.typeError (fname ++ "() got an unexpected keyword argument " ++ kv.1))
  | none =>
    match (sig.filter
        (fun s => s.required && !(params.any (fun kv => kv.1 = s.pname)))).map (·.pname) with
    | [] => .ok ()
    | missing => .error (.typeError (fname ++ "() missing " ++ toString missing.length ++
        (if missing.length = 1 then " required positional argument: "
         else " required positional arguments: ") ++ joinNames missing))

/-- Read a bound keyword argument (binding has already checked presence,
so the default is never reached). -/
def getParam (params : Params) (k : String) : Value :=
  ((params.find? (fun kv => kv.1 = k)).map (·.2)).getD (.str "")

/-- The keys of the pharmacy `functions` table (lines 192-196). -/
inductive PharmFn where
  | getDrugInfo
  | placeOrder
  | checkOrderStatus
  deriving DecidableEq

/-- Lookup `functions.get(function_name)` for the pharmacy registry. -/
def pharmLookup : String → Option PharmFn
  | "get_drug_info" => some .getDrugInfo
  | "place_order" => some .placeOrder
  | "check_order_status" => some .checkOrderStatus
  | _ => none

/-- The declared signatures of the pharmacy skills. -/
def pharmSigOf : PharmFn → List ParamSpec
  | .getDrugInfo => [⟨"drug_name", true⟩]
  | .placeOrder => [⟨"drug_name", true⟩, ⟨"quantity", true⟩, ⟨"customer_name", true⟩]
  | .checkOrderStatus => [⟨"order_id", true⟩]

/-- Call `func(**parameters)` for a matched pharmacy skill: keyword binding,
then the (possibly raising) body. -/
def callSkill (st : PharmacyState) (fn : PharmFn) (fname : String) (params : Params) :
    Except PyErr (PharmacyState × String) :=
  match bindCheck fname (pharmSigOf fn) params with
  | .error e => .error e
  | .ok _ =>
    match fn with
    | .getDrugInfo =>
        (get_drug_infoV st (getParam params "drug_name")).map (fun s => (st, s))
    | .placeOrder =>
        place_orderV st (getParam params "drug_name") (getParam params "quantity")
          (getParam params "customer_name")
    | .checkOrderStatus =>
        (check_order_statusV st (getParam params "order_id")).map (fun s => (st, s))

/-- Dispatcher `execute_function` of `pharmacy_functions.py` (lines 181-205): unknown
names yield the `Unknown function:` template, and the blanket
`except Exception` turns any raised error into the `Error executing ...:`
template carrying `str(e)`. -/
def execute_function (st : PharmacyState) (function_name : String) (parameters : Params) :
    PharmacyState × String :=
  match pharmLookup function_name with
  | some fn =>
    match callSkill st fn function_name parameters with
    | .ok r => r
    | .error e => (st, "Error executing " ++ function_name ++ ": " ++ pyMsg e)
  | none => (st, "Unknown function: " ++ function_name)

/-! Appointment registry dispatcher (`appointment_functions.py` lines 356-381).

The six appointment skill bodies read the clock and the random generator,
so they are carried as an abstract parameter `body`; the theorems hold for
every body, which in particular covers the actual ones. -/

/-- The `functions` table of the appointment registry, with each declared
signature (`False` marks a parameter that defaults to `None`). -/
def apptSigTable : String → Option (List ParamSpec)
  | "get_available_slots" => some [⟨"date", true⟩, ⟨"visa_type", false⟩]
  | "book_appointment" => some [⟨"customer_name", true⟩, ⟨"phone_number", true⟩,
      ⟨"date", true⟩, ⟨"time", true⟩, ⟨"visa_type", true⟩]
  | "get_visa_info" => some [⟨"visa_type", true⟩, ⟨"destination_country", false⟩]
  | "check_appointment" => some [⟨"confirmation_code", false⟩, ⟨"phone_number", false⟩]
  | "cancel_appointment" => some [⟨"confirmation_code", true⟩, ⟨"reason", false⟩]
  | "request_callback" => some [⟨"customer_name", true⟩, ⟨"phone_number", true⟩,
      ⟨"inquiry_type", false⟩]
  | _ => none

/-- Call `func(**parameters)` for a matched appointment skill: binding first,
then the abstract body. -/
def apptCall (body : String → Params → Except PyErr String)
    (fname : String) (sig : List ParamSpec) (params : Params) : Except PyErr String :=
  match bindCheck fname sig params with
  | .error e => .error e
  | .ok _ => body fname params

/-- Dispatcher `execute_function` of `appointment_functions.py`: unknown names yield
the consultant template; `except TypeError` yields the
need-more-information template; any other exception yields the
technical-issue template. -/
def appt_execute_function (body : String → Params → Except PyErr String)
    (function_name : String) (parameters : Params) : String :=
  match apptSigTable function_name with
  | none => "I\x27m not sure how to help with that. Would you like to speak with a consultant?"
  | some sig =>
    match apptCall body function_name sig parameters with
    | .ok s => s
    | .error (.typeError _) =>
        "I need a bit more information. Could you please provide the missing details?"
    | .error _ =>
        "I\x27m having a technical issue. Let me arrange a callback from our team."

/-! The session bridge (`main.py`). -/

/-- A parsed Twilio envelope, keyed on `data.get("event")`
(`twilio_to_deepgram`, lines 119-145).  `start` carries
`data.get("streamSid")`, which may be absent. -/
inductive TwilioMsg where
  | start (streamSid : Option String)
  | media (payload : String)
  | stop
  | otherEvent
  deriving DecidableEq

/-- A parsed Deepgram frame, keyed on binary-vs-text and then on
`data.get("type")` (`deepgram_to_twilio`, lines 150-211). -/
inductive AgentMsg where
  | binary (audio : List Nat)
  | welcome
  | conversationText (role content : String)
  | functionCallRequest (function_name : Option String) (function_call_id : Option String)
      (input : Params)
  | agentThinking
  | errorEvent (detail : String)
  | otherText
  deriving DecidableEq

/-- The `FunctionCallResponse` JSON built on lines 195-199. -/
structure FcResponse where
  function_call_id : Option String
  output : String
  deriving DecidableEq

/-- The outbound Twilio media envelope built on lines 159-165
(`streamSid` is `null` when no `start` has been seen). -/
structure TwilioMediaOut where
  streamSid : Option String
  payload : String
  deriving DecidableEq

/-- A frame the bridge sends, on either link. -/
inductive BridgeSend where
  | toDeepgram (response : FcResponse)
  | toTwilio (m : TwilioMediaOut)
  deriving DecidableEq

/-- Value of `data.get("function_name")` handed to `execute_function`: an absent
name renders as `None` and matches no table key (no skill is named
`"None"`), so passing the rendered text is behaviourally exact. -/
def optName : Option String → String
  | some s => s
  | none => "None"

/-- The `twilio_to_deepgram` loop as a function of the envelope sequence:
returns the final `stream_sid` and the audio frames sent to Deepgram, in
order.  A `stop` breaks the loop; a payload whose decoding raises ends
the loop through the enclosing `except` (lines 142-145). -/
def twilio_to_deepgram : Option String → List TwilioMsg → Option String × List (List Nat)
  | sid, [] => (sid, [])
  | _, .start s :: rest => twilio_to_deepgram s rest
  | sid, .media p :: rest =>
    match b64decode p with
    | some bytes =>
      let r := twilio_to_deepgram sid rest
      (r.1, bytes :: r.2)
    | none => (sid, [])
  | sid, .stop :: _ => (sid, [])
  | sid, .otherEvent :: rest => twilio_to_deepgram sid rest

/-- The `deepgram_to_twilio` loop as a function of the agent-frame
sequence: threads the pharmacy state through `execute_function` and
returns the frames sent on both links, in order.  `sid` is the
`stream_sid` value captured by the other loop. -/
def deepgram_to_twilio (sid : Option String) :
    PharmacyState → List AgentMsg → PharmacyState × List BridgeSend
  | st, [] => (st, [])
  | st, .binary audio :: rest =>
    let r := deepgram_to_twilio sid st rest
    (r.1, .toTwilio ⟨sid, b64encode audio⟩ :: r.2)
  | st, .functionCallRequest nm callId inp :: rest =>
    let ex := execute_function st (optName nm) inp
    let r := deepgram_to_twilio sid ex.1 rest
    (r.1, .toDeepgram ⟨callId, ex.2⟩ :: r.2)
  | st, .welcome :: rest => deepgram_to_twilio sid st rest
  | st, .conversationText _ _ :: rest => deepgram_to_twilio sid st rest
  | st, .agentThinking :: rest => deepgram_to_twilio sid st rest
  | st, .errorEvent _ :: rest => deepgram_to_twilio sid st rest
  | st, .otherText :: rest => deepgram_to_twilio sid st rest

/-- How loading `config.json` went (lines 101-111). -/
inductive ConfigLoad where
  | fileMissing
  | invalidJson
  | loaded
  deriving DecidableEq

/-- What one run of `handle_twilio_connection` did with its resources.
`twilioClosed` records whether the handler itself closed the Twilio
socket (closure by the surrounding `websockets.serve` machinery is outside
the repository). -/
structure SessionTrace where
  deepgramOpened : Bool
  deepgramClosed : Bool
  twilioClosed : Bool
  mediaForwarded : Bool
  deriving DecidableEq

/-- Whether a sent frame is a media envelope (audio reaching Twilio). -/
def isMediaOut : BridgeSend → Bool
  | .toTwilio _ => true
  | .toDeepgram _ => false

/-- `handle_twilio_connection` (lines 79-225) by exit path: the
connect-failure and the two config-failure paths `return` early; the
normal path runs both loops and closes the Deepgram socket in `finally`.
The loops cannot fault past their own `except` blocks, so the normal path
always reaches the `finally`. -/
def handle_twilio_connection (connectOk : Bool) (config : ConfigLoad)
    (sid : Option String) (st : PharmacyState)
    (twilioMsgs : List TwilioMsg) (agentMsgs : List AgentMsg) : SessionTrace :=
  if !connectOk then
    { deepgramOpened := false, deepgramClosed := false,
      twilioClosed := false, mediaForwarded := false }
  else
    match config with
    | .fileMissing | .invalidJson =>
      { deepgramOpened := true, deepgramClosed := false,
        twilioClosed := false, mediaForwarded := false }
    | .loaded =>
      let up := (twilio_to_deepgram none twilioMsgs).2
      let down := (deepgram_to_twilio sid st agentMsgs).2
      { deepgramOpened := true, deepgramClosed := true,
        twilioClosed := false,
        mediaForwarded := !up.isEmpty || down.any isMediaOut }

/-- A sequence of dispatched pharmacy calls, folded through
`execute_function` from the import-time state. -/
def runPharmacy : PharmacyState → List (String × Params) → PharmacyState
  | st, [] => st
  | st, (n, p) :: rest => runPharmacy (execute_function st n p).1 rest

/-- Every stock in the inventory is nonnegative. -/
def allStocksNonneg (inv : List (String × Drug)) : Bool :=
  inv.all (fun p => 0 ≤ p.2.stock)

/-- The ids of the `FunctionCallResponse` frames in a sent-frame list, in
order. -/
def responseIds (outs : List BridgeSend) : List (Option String) :=
  outs.filterMap (fun o =>
    match o with
    | .toDeepgram r => some r.function_call_id
    | .toTwilio _ => none)

/-- The ids of the `FunctionCallRequest` frames in an agent-frame list,
in order. -/
def requestIds (msgs : List AgentMsg) : List (Option String) :=
  msgs.filterMap (fun m =>
    match m with
    | .functionCallRequest _ i _ => some i
    | _ => none)

/-- Decoded audio of a `media` envelope, `none` for anything else. -/
def mediaBytes : TwilioMsg → Option (List Nat)
  | .media p => b64decode p
  | _ => none

/-- Whether an envelope is a `media` envelope with a payload that decodes. -/
def mediaValid : TwilioMsg → Bool
  | .media p => (b64decode p).isSome
  | _ => false

/-! Theorems. -/

/-- The six-bit value of each encoded character decodes back. -/
theorem decChar_encChar : ∀ v : Nat, v < 64 → decChar (encChar v) = some v := by decide

/-- No encoded character is the padding character. -/
theorem encChar_ne_pad : ∀ v : Nat, v < 64 → ¬(encChar v = '=') := by decide

/-- Round trip of the base64 coding on byte lists. -/
theorem b64List_roundtrip :
    ∀ bs : List Nat, (∀ b ∈ bs, b < 256) → b64decodeList (b64encodeList bs) = some bs
  | [], _ => rfl
  | [b0], h => by
    have hb0 : b0 < 256 := h b0 (by simp)
    have e0 := decChar_encChar (b0 / 4) (by omega)
    have e1 := decChar_encChar (b0 % 4 * 16) (by omega)
    simp [b64encodeList, b64decodeList, e0, e1]
    omega
  | [b0, b1], h => by
    have hb0 : b0 < 256 := h b0 (by simp)
    have hb1 : b1 < 256 := h b1 (by simp)
    have e0 := decChar_encChar (b0 / 4) (by omega)
    have e1 := decChar_encChar (b0 % 4 * 16 + b1 / 16) (by omega)
    have e2 := decChar_encChar (b1 % 16 * 4) (by omega)
    have n2 := encChar_ne_pad (b1 % 16 * 4) (by omega)
    simp [b64encodeList, b64decodeList, e0, e1, e2, n2]
    omega
  | b0 :: b1 :: b2 :: rest, h => by
    have hb0 : b0 < 256 := h b0 (by simp)
    have hb1 : b1 < 256 := h b1 (by simp)
    have hb2 : b2 < 256 := h b2 (by simp)
    have ih := b64List_roundtrip rest (fun b hb => h b (by simp [hb]))
    have e0 := decChar_encChar (b0 / 4) (by omega)
    have e1 := decChar_encChar (b0 % 4 * 16 + b1 / 16) (by omega)
    have e2 := decChar_encChar (b1 % 16 * 4 + b2 / 64) (by omega)
    have e3 := decChar_encChar (b2 % 64) (by omega)
    have n2 := encChar_ne_pad (b1 % 16 * 4 + b2 / 64) (by omega)
    have n3 := encChar_ne_pad (b2 % 64) (by omega)
    simp [b64encodeList, b64decodeList, e0, e1, e2, e3, n2, n3, ih]
    omega

/-- C8: encoding raw audio bytes to base64 as the outbound path does and
decoding the resulting payload as the inbound path does returns the
original bytes, for every byte string including the empty one. -/
theorem base64_roundtrip (bs : List Nat) (h : ∀ b ∈ bs, b < 256) :
    b64decode (b64encode bs) = some bs :=
  b64List_roundtrip bs h

/-- Witness for `base64_roundtrip` at concrete byte strings. -/
theorem base64_roundtrip_witness :
    ((∀ b ∈ [(0 : Nat), 61, 255], b < 256) ∧
        b64decode (b64encode [0, 61, 255]) = some [0, 61, 255]) ∧
      b64decode (b64encode []) = some [] :=
  ⟨⟨by decide, base64_roundtrip [0, 61, 255] (by decide)⟩,
    base64_roundtrip [] (by decide)⟩

/-- C1: the agent-to-telephony loop answers every `FunctionCallRequest`
with exactly one `FunctionCallResponse`, echoing the request id verbatim
and in request order, whatever the skill outcome is. -/
theorem one_response_per_request (sid : Option String) (st : PharmacyState)
    (msgs : List AgentMsg) :
    responseIds (deepgram_to_twilio sid st msgs).2 = requestIds msgs := by
  induction msgs generalizing st with
  | nil => rfl
  | cons m rest ih =>
    cases m <;>
      simp [deepgram_to_twilio, responseIds, requestIds, List.filterMap_cons] <;>
      simpa [responseIds, requestIds] using ih _

/-- C2 counterexample: a `media` envelope arriving before any `start`
envelope is not dropped — its decoded payload is sent to the agent
link (and `stream_sid` stays unset). -/
theorem media_before_start_forwarded :
    (twilio_to_deepgram none [TwilioMsg.media "AAAA"]).2 = [[0, 0, 0]] ∧
      ¬((twilio_to_deepgram none [TwilioMsg.media "AAAA"]).2 = []) ∧
      (twilio_to_deepgram none [TwilioMsg.media "AAAA"]).1 = none := by
  refine ⟨rfl, ?_, rfl⟩
  decide

/-- C2 amended: the telephony-to-agent loop does not gate `media` on the
session phase: a decodable `media` envelope is forwarded whether or not a
`start` has been seen, and it never changes the captured `stream_sid`;
a `media` envelope arriving after a `stop` is never processed, because
the loop returns at `stop`. -/
theorem media_handling_phase_free :
    (∀ (sid : Option String) (evs : List TwilioMsg),
        (twilio_to_deepgram sid (TwilioMsg.stop :: evs)).2 = []) ∧
      (∀ (sid : Option String) (p : String) (bytes : List Nat) (rest : List TwilioMsg),
        b64decode p = some bytes →
          (twilio_to_deepgram sid (TwilioMsg.media p :: rest)).2 =
              bytes :: (twilio_to_deepgram sid rest).2 ∧
            (twilio_to_deepgram sid (TwilioMsg.media p :: rest)).1 =
              (twilio_to_deepgram sid rest).1) := by
  refine ⟨fun _ _ => rfl, fun sid p bytes rest hdec => ?_⟩
  simp [twilio_to_deepgram, hdec]

/-- Witness for `media_handling_phase_free` at a concrete payload with no
preceding `start`. -/
theorem media_handling_phase_free_witness :
    (twilio_to_deepgram none [TwilioMsg.stop]).2 = [] ∧
      (twilio_to_deepgram none [TwilioMsg.media "AAAA"]).2 =
          [0, 0, 0] :: (twilio_to_deepgram none ([] : List TwilioMsg)).2 :=
  ⟨media_handling_phase_free.1 none [],
    (media_handling_phase_free.2 none "AAAA" [0, 0, 0] [] (by decide)).1⟩

/-- Helper for C3: while no `start` or `stop` intervenes, each decodable
`media` envelope is forwarded exactly once, in arrival order. -/
theorem media_run_forwarded (sid : Option String) :
    ∀ ms : List TwilioMsg, (∀ m ∈ ms, mediaValid m = true) →
      (twilio_to_deepgram sid ms).2 = ms.filterMap mediaBytes := by
  intro ms hv
  induction ms with
  | nil => rfl
  | cons m rest ih =>
    have hm := hv m (by simp)
    cases m with
    | media p =>
      obtain ⟨bytes, hdec⟩ := Option.isSome_iff_exists.mp (by simpa [mediaValid] using hm)
      have := ih (fun x hx => hv x (by simp [hx]))
      simp [twilio_to_deepgram, List.filterMap_cons, mediaBytes, hdec, this]
    | start s => simp [mediaValid] at hm
    | stop => simp [mediaValid] at hm
    | otherEvent => simp [mediaValid] at hm

/-- C3: after a `start` envelope, a run of valid `media` envelopes is
forwarded to the agent link exactly once each and in strict receipt
order: the sent audio list is exactly the in-order list of decoded
payloads. -/
theorem active_media_forwarded_once_in_order (sid : Option String)
    (s : Option String) (ms : List TwilioMsg)
    (hv : ∀ m ∈ ms, mediaValid m = true) :
    (twilio_to_deepgram sid (TwilioMsg.start s :: ms)).2 = ms.filterMap mediaBytes := by
  have : twilio_to_deepgram sid (TwilioMsg.start s :: ms) = twilio_to_deepgram s ms := rfl
  rw [this, media_run_forwarded s ms hv]

/-- Witness for `active_media_forwarded_once_in_order` on a concrete
active run of two media envelopes. -/
theorem active_media_forwarded_once_in_order_witness :
    (∀ m ∈ [TwilioMsg.media "AAAA", TwilioMsg.media "AA=="], mediaValid m = true) ∧
      (twilio_to_deepgram none
          [TwilioMsg.start (some "CA1"), TwilioMsg.media "AAAA", TwilioMsg.media "AA=="]).2 =
        [[0, 0, 0], [0]] :=
  ⟨by decide,
    by
      rw [active_media_forwarded_once_in_order none (some "CA1")
        [TwilioMsg.media "AAAA", TwilioMsg.media "AA=="] (by decide)]
      decide⟩

/-- C6 counterexample: a binary agent frame arriving while `stream_sid`
is still unset is not dropped — a `media` envelope is sent to the
telephony link, tagged with the null `streamSid`. -/
theorem audio_without_sid_still_sent :
    (deepgram_to_twilio none pharmacyInit [AgentMsg.binary [0]]).2 =
        [BridgeSend.toTwilio ⟨none, "AA=="⟩] ∧
      ¬((deepgram_to_twilio none pharmacyInit [AgentMsg.binary [0]]).2 = []) := by
  refine ⟨rfl, ?_⟩
  decide

/-- C6 amended: every binary agent frame is base64-encoded and sent to
the telephony link as a `media` envelope tagged with the current
`stream_sid` value — which is `null` when no `start` envelope has been
captured yet; no frame is dropped or buffered. -/
theorem audio_forwarded_with_current_sid (sid : Option String)
    (st : PharmacyState) (audio : List Nat) (rest : List AgentMsg) :
    (deepgram_to_twilio sid st (AgentMsg.binary audio :: rest)).2 =
      BridgeSend.toTwilio ⟨sid, b64encode audio⟩ ::
        (deepgram_to_twilio sid st rest).2 := rfl

/-- C7 counterexample: when `config.json` fails to load, the handler
returns with the Deepgram link open and unclosed; and when the Deepgram
connect fails, the handler does not close the Twilio link itself. -/
theorem teardown_gap :
    (handle_twilio_connection true ConfigLoad.fileMissing none pharmacyInit [] []).deepgramOpened
        = true ∧
      (handle_twilio_connection true ConfigLoad.fileMissing none pharmacyInit [] []).deepgramClosed
        = false ∧
      (handle_twilio_connection false ConfigLoad.loaded none pharmacyInit [] []).twilioClosed
        = false := ⟨rfl, rfl, rfl⟩

/-- C7 amended: on the normal path the Deepgram link is closed in the
`finally` block however the loops end; every setup-failure path forwards
no media; but the handler leaves the Deepgram link unclosed when config
loading fails, and it never closes the Twilio link on any path (that is
left to the surrounding server). -/
theorem teardown_behaviour :
    (∀ (sid : Option String) (st : PharmacyState) (tm : List TwilioMsg) (am : List AgentMsg),
        (handle_twilio_connection true ConfigLoad.loaded sid st tm am).deepgramClosed = true) ∧
      (∀ (cfg : ConfigLoad) (sid : Option String) (st : PharmacyState)
          (tm : List TwilioMsg) (am : List AgentMsg),
        (handle_twilio_connection false cfg sid st tm am).mediaForwarded = false ∧
          (handle_twilio_connection false cfg sid st tm am).deepgramOpened = false) ∧
      (∀ (sid : Option String) (st : PharmacyState) (tm : List TwilioMsg) (am : List AgentMsg),
        (handle_twilio_connection true ConfigLoad.fileMissing sid st tm am).mediaForwarded = false ∧
          (handle_twilio_connection true ConfigLoad.fileMissing sid st tm am).deepgramClosed = false ∧
          (handle_twilio_connection true ConfigLoad.invalidJson sid st tm am).deepgramClosed = false) ∧
      (∀ (ok : Bool) (cfg : ConfigLoad) (sid : Option String) (st : PharmacyState)
          (tm : List TwilioMsg) (am : List AgentMsg),
        (handle_twilio_connection ok cfg sid st tm am).twilioClosed = false) := by
  refine ⟨fun _ _ _ _ => rfl, fun cfg _ _ _ _ => ⟨rfl, rfl⟩,
    fun _ _ _ _ => ⟨rfl, rfl, rfl⟩, fun ok cfg _ _ _ _ => ?_⟩
  cases ok <;> cases cfg <;> rfl

/-- C4: both dispatchers always return a plain text and never let an
exception escape: an unknown name yields the unknown-function template,
a raised exception yields a templated failure text, and a normal skill
result is passed through.  The appointment part holds for every possible
skill-body behaviour. -/
theorem skill_registry_never_raises (st : PharmacyState) (name : String)
    (params : Params) (body : String → Params → Except PyErr String) :
    (pharmLookup name = none →
        execute_function st name params = (st, "Unknown function: " ++ name)) ∧
      (∀ fn e, pharmLookup name = some fn → callSkill st fn name params = .error e →
        execute_function st name params =
          (st, "Error executing " ++ name ++ ": " ++ pyMsg e)) ∧
      (∀ fn r, pharmLookup name = some fn → callSkill st fn name params = .ok r →
        execute_function st name params = r) ∧
      (apptSigTable name = none →
        appt_execute_function body name params =
          "I\x27m not sure how to help with that. Would you like to speak with a consultant?") ∧
      (∀ sig s, apptSigTable name = some sig → apptCall body name sig params = .ok s →
        appt_execute_function body name params = s) ∧
      (∀ sig e, apptSigTable name = some sig → apptCall body name sig params = .error e →
        appt_execute_function body name params =
          (match e with
           | .typeError _ =>
               "I need a bit more information. Could you please provide the missing details?"
           | .attributeError _ =>
               "I\x27m having a technical issue. Let me arrange a callback from our team.")) := by
  refine ⟨fun h => ?_, fun fn e h1 h2 => ?_, fun fn r h1 h2 => ?_,
    fun h => ?_, fun sig s h1 h2 => ?_, fun sig e h1 h2 => ?_⟩
  · simp [execute_function, h]
  · simp [execute_function, h1, h2]
  · simp [execute_function, h1, h2]
  · simp [appt_execute_function, h]
  · simp [appt_execute_function, h1, h2]
  · cases e <;> simp [appt_execute_function, h1, h2]

/-- Witness for `skill_registry_never_raises`: an unknown skill, a skill
raising internally, an unknown appointment skill, and an appointment
body raising a non-TypeError. -/
theorem skill_registry_never_raises_witness :
    execute_function pharmacyInit "bogus" [] = (pharmacyInit, "Unknown function: bogus") ∧
      execute_function pharmacyInit "get_drug_info" [("drug_name", Value.int 5)] =
        (pharmacyInit, "Error executing get_drug_info: int object has no attribute lower") ∧
      appt_execute_function (fun _ _ => .error (.attributeError "boom")) "bogus" [] =
        "I\x27m not sure how to help with that. Would you like to speak with a consultant?" ∧
      appt_execute_function (fun _ _ => .error (.attributeError "boom")) "get_visa_info"
          [("visa_type", Value.str "work")] =
        "I\x27m having a technical issue. Let me arrange a callback from our team." :=
  ⟨(skill_registry_never_raises pharmacyInit "bogus" []
      (fun _ _ => .error (.attributeError "boom"))).1 rfl,
    (skill_registry_never_raises pharmacyInit "get_drug_info" [("drug_name", Value.int 5)]
        (fun _ _ => .error (.attributeError "boom"))).2.1
      PharmFn.getDrugInfo (.attributeError "int object has no attribute lower") rfl rfl,
    (skill_registry_never_raises pharmacyInit "bogus" []
        (fun _ _ => .error (.attributeError "boom"))).2.2.2.1 rfl,
    (skill_registry_never_raises pharmacyInit "get_visa_info" [("visa_type", Value.str "work")]
        (fun _ _ => .error (.attributeError "boom"))).2.2.2.2.2
      [⟨"visa_type", true⟩, ⟨"destination_country", false⟩] (.attributeError "boom") rfl rfl⟩

/-- Every binding failure is a `TypeError`. -/
theorem bindCheck_error_typeError (fname : String) (sig : List ParamSpec)
    (params : Params) (e : PyErr) (h : bindCheck fname sig params = .error e) :
    ∃ m, e = .typeError m := by
  unfold bindCheck at h
  split at h
  · exact ⟨_, (Except.error.inj h).symm⟩
  · split at h
    · cases h
    · exact ⟨_, (Except.error.inj h).symm⟩

/-- C5 counterexample: in the pharmacy registry (the one the bridge
imports), a parameter-shape mismatch does not produce a
need-more-information text; the raw binding error message is embedded in
the returned text. -/
theorem binding_error_exposed :
    (execute_function pharmacyInit "get_drug_info" []).2 =
        "Error executing get_drug_info: " ++
          "get_drug_info() missing 1 required positional argument: drug_name" ∧
      ¬((execute_function pharmacyInit "get_drug_info" []).2 =
          "I need a bit more information. Could you please provide the missing details?") ∧
      strIn "missing 1 required positional argument"
          (execute_function pharmacyInit "get_drug_info" []).2 = true := by
  refine ⟨rfl, ?_, ?_⟩ <;> decide

/-- C5 amended: only the appointment registry converts a binding
mismatch into the need-more-information template; the pharmacy registry
catches the same `TypeError` with its blanket handler and returns the
`Error executing ...` template that carries the raw binding message. -/
theorem binding_mismatch_behaviour :
    (∀ (body : String → Params → Except PyErr String) (name : String)
        (sig : List ParamSpec) (params : Params) (e : PyErr),
      apptSigTable name = some sig → bindCheck name sig params = .error e →
        appt_execute_function body name params =
          "I need a bit more information. Could you please provide the missing details?") ∧
      (∀ (st : PharmacyState) (name : String) (fn : PharmFn) (params : Params) (e : PyErr),
        pharmLookup name = some fn → bindCheck name (pharmSigOf fn) params = .error e →
          execute_function st name params =
            (st, "Error executing " ++ name ++ ": " ++ pyMsg e)) := by
  constructor
  · intro body name sig params e h1 h2
    obtain ⟨m, rfl⟩ := bindCheck_error_typeError name sig params e h2
    simp [appt_execute_function, apptCall, h1, h2]
  · intro st name fn params e h1 h2
    simp [execute_function, callSkill, h1, h2]

/-- Witness for `binding_mismatch_behaviour` at concrete calls with a
missing required parameter. -/
theorem binding_mismatch_behaviour_witness :
    appt_execute_function (fun _ _ => .ok "unused") "get_visa_info" [] =
        "I need a bit more information. Could you please provide the missing details?" ∧
      execute_function pharmacyInit "get_drug_info" [] =
        (pharmacyInit, "Error executing get_drug_info: " ++
          "get_drug_info() missing 1 required positional argument: drug_name") :=
  ⟨binding_mismatch_behaviour.1 (fun _ _ => .ok "unused") "get_visa_info"
      [⟨"visa_type", true⟩, ⟨"destination_country", false⟩] []
      (.typeError "get_visa_info() missing 1 required positional argument: visa_type")
      rfl rfl,
    binding_mismatch_behaviour.2 pharmacyInit "get_drug_info" PharmFn.getDrugInfo []
      (.typeError "get_drug_info() missing 1 required positional argument: drug_name")
      rfl rfl⟩

/-- Helper: for a predicate that looks only at the key, the entry found
is also the first entry carrying its key. -/
theorem find?_first_key (f : String × Drug → Bool)
    (hf : ∀ p q : String × Drug, p.1 = q.1 → f p = f q) :
    ∀ (l : List (String × Drug)) (p : String × Drug),
      l.find? f = some p → l.find? (fun q => q.1 = p.1) = some p := by
  intro l
  induction l with
  | nil => intro p h; cases h
  | cons a tl ih =>
    intro p h
    by_cases hfa : f a = true
    · rw [List.find?_cons_of_pos _ hfa] at h
      injection h with h
      subst h
      exact List.find?_cons_of_pos _ (by simp)
    · rw [List.find?_cons_of_neg _ (by simpa using hfa)] at h
      have hp := List.find?_some h
      have hne : ¬(a.1 = p.1) := fun he => hfa (by rw [hf a p he]; exact hp)
      rw [List.find?_cons_of_neg _ (by simpa using hne)]
      exact ih p h

/-- Helper: the entry `matchDrug` returns is the first inventory entry
with its key, so the later `INVENTORY[drug_key]` access hits it. -/
theorem matchDrug_find? (inv : List (String × Drug)) (key k : String) (d : Drug)
    (h : matchDrug inv key = some (k, d)) :
    inv.find? (fun q => q.1 = k) = some (k, d) := by
  unfold matchDrug at h
  cases hex : inv.find? (fun p => p.1 = key) with
  | some p =>
    rw [hex] at h
    injection h with h
    subst h
    have hk : k = key := by simpa using List.find?_some hex
    subst hk
    exact hex
  | none =>
    rw [hex] at h
    exact find?_first_key _ (fun p q he => by simp [he]) inv (k, d) h

/-- Helper: decrementing the first entry with key `k` by `q` keeps all
stocks nonnegative, provided that entry has stock at least `q`. -/
theorem allStocksNonneg_updateStock (inv : List (String × Drug)) (k : String) (q : Int)
    (h : allStocksNonneg inv = true)
    (hfound : ∀ d : String × Drug, inv.find? (fun p => p.1 = k) = some d → q ≤ d.2.stock) :
    allStocksNonneg (updateStock inv k q) = true := by
  induction inv with
  | nil => rfl
  | cons p tl ih =>
    simp only [allStocksNonneg, List.all_cons, Bool.and_eq_true, decide_eq_true_eq] at h
    by_cases hk : p.1 = k
    · have hq := hfound p (List.find?_cons_of_pos _ (by simp [hk]))
      simp only [updateStock, if_pos hk, allStocksNonneg, List.all_cons, Bool.and_eq_true,
        decide_eq_true_eq]
      refine ⟨by omega, ?_⟩
      simpa [allStocksNonneg] using h.2
    · simp only [updateStock, if_neg hk, allStocksNonneg, List.all_cons, Bool.and_eq_true,
        decide_eq_true_eq]
      refine ⟨h.1, ?_⟩
      have := ih (by simpa [allStocksNonneg] using h.2)
        (fun d hd => hfound d (by rw [List.find?_cons_of_neg _ (by simpa using hk)]; exact hd))
      simpa [allStocksNonneg] using this

/-- Helper: a successful `place_order` keeps every stock nonnegative. -/
theorem place_orderV_nonneg (st : PharmacyState) (vd vq vc : Value)
    (r : PharmacyState × String) (hok : place_orderV st vd vq vc = .ok r)
    (h : allStocksNonneg st.inventory = true) :
    allStocksNonneg r.1.inventory = true := by
  cases vd with
  | int n => cases hok
  | str dn =>
    cases hm : matchDrug st.inventory (normKey dn) with
    | none =>
      simp only [place_orderV, hm, Except.ok.injEq] at hok
      obtain rfl := hok
      simpa
    | some p =>
      obtain ⟨k, d⟩ := p
      by_cases hrx : d.requiresPrescription = true
      · simp only [place_orderV, hm, hrx, if_true, Except.ok.injEq] at hok
        obtain rfl := hok
        simpa
      · have hrx' : d.requiresPrescription = false := by simpa using hrx
        cases vq with
        | str s => simp [place_orderV, hm, hrx'] at hok
        | int q =>
          by_cases hlt : d.stock < q
          · simp only [place_orderV, hm, hrx', Bool.false_eq_true, if_false, if_pos hlt,
              Except.ok.injEq] at hok
            obtain rfl := hok
            simpa
          · simp only [place_orderV, hm, hrx', Bool.false_eq_true, if_false, if_neg hlt,
              Except.ok.injEq] at hok
            obtain rfl := hok
            refine allStocksNonneg_updateStock st.inventory k q h (fun d' hd' => ?_)
            have := matchDrug_find? st.inventory (normKey dn) k d hm
            rw [this] at hd'
            obtain rfl := Option.some.inj hd'
            have hq : q ≤ d.stock := by omega
            simpa using hq

/-- Helper: one dispatched pharmacy call keeps every stock nonnegative
(only `place_order` touches the inventory at all). -/
theorem execute_function_nonneg (st : PharmacyState) (n : String) (p : Params)
    (h : allStocksNonneg st.inventory = true) :
    allStocksNonneg (execute_function st n p).1.inventory = true := by
  unfold execute_function
  split
  case h_2 => simpa
  case h_1 fn hl =>
    split
    case h_2 e hc => simpa
    case h_1 r hc =>
      unfold callSkill at hc
      cases hb : bindCheck n (pharmSigOf fn) p with
      | error e => rw [hb] at hc; cases hc
      | ok u =>
        rw [hb] at hc
        cases fn with
        | getDrugInfo =>
          cases hg : get_drug_infoV st (getParam p "drug_name") with
          | error e => simp [hg, Except.map] at hc
          | ok s =>
            simp only [hg, Except.map, Except.ok.injEq] at hc
            obtain rfl := hc
            simpa
        | placeOrder =>
          refine place_orderV_nonneg st (getParam p "drug_name") (getParam p "quantity")
            (getParam p "customer_name") r ?_ h
          simpa using hc
        | checkOrderStatus =>
          cases hg : check_order_statusV st (getParam p "order_id") with
          | error e => simp [hg, Except.map] at hc
          | ok s =>
            simp only [hg, Except.map, Except.ok.injEq] at hc
            obtain rfl := hc
            simpa

/-- Helper: the invariant carried through a whole call sequence. -/
theorem runPharmacy_nonneg :
    ∀ (calls : List (String × Params)) (st : PharmacyState),
      allStocksNonneg st.inventory = true →
        allStocksNonneg (runPharmacy st calls).inventory = true
  | [], _, h => h
  | (n, p) :: rest, st, h =>
    runPharmacy_nonneg rest _ (execute_function_nonneg st n p h)

/-- C9: starting from the initial inventory, every stock stays
nonnegative after any sequence of dispatched pharmacy calls; moreover
`place_order` leaves the state untouched when the matched drug has
insufficient stock, and in the confirming branch it decrements exactly
the matched entry by exactly the requested quantity. -/
theorem inventory_stock_nonneg :
    (∀ calls : List (String × Params),
        allStocksNonneg (runPharmacy pharmacyInit calls).inventory = true) ∧
      (∀ (st : PharmacyState) (dn : String) (q : Int) (vc : Value) (k : String) (d : Drug)
          (r : PharmacyState × String),
        matchDrug st.inventory (normKey dn) = some (k, d) →
          d.requiresPrescription = false →
          place_orderV st (Value.str dn) (Value.int q) vc = .ok r →
          ((d.stock < q → r.1 = st) ∧
            (q ≤ d.stock → r.1.inventory = updateStock st.inventory k q))) := by
  constructor
  · exact fun calls => runPharmacy_nonneg calls pharmacyInit (by decide)
  · intro st dn q vc k d r hm hrx hok
    by_cases hlt : d.stock < q
    · simp only [place_orderV, hm, hrx, Bool.false_eq_true, if_false, if_pos hlt,
        Except.ok.injEq] at hok
      obtain rfl := hok
      exact ⟨fun _ => rfl, fun hq => absurd hq (by omega)⟩
    · simp only [place_orderV, hm, hrx, Bool.false_eq_true, if_false, if_neg hlt,
        Except.ok.injEq] at hok
      obtain rfl := hok
      exact ⟨fun hq => absurd hq hlt, fun _ => rfl⟩

/-- Witness for `inventory_stock_nonneg`: one concrete confirmed order. -/
theorem inventory_stock_nonneg_witness :
    allStocksNonneg (runPharmacy pharmacyInit
        [("place_order", [("drug_name", Value.str "aspirin"), ("quantity", Value.int 2),
          ("customer_name", Value.str "Ann")])]).inventory = true ∧
      ∃ r : PharmacyState × String,
        place_orderV pharmacyInit (Value.str "aspirin") (Value.int 2) (Value.str "Ann")
            = .ok r ∧
          r.1.inventory = updateStock pharmacyInit.inventory "aspirin" 2 := by
  constructor
  · exact inventory_stock_nonneg.1 _
  · obtain ⟨r, hr⟩ : ∃ r, place_orderV pharmacyInit (Value.str "aspirin") (Value.int 2)
        (Value.str "Ann") = .ok r := ⟨_, rfl⟩
    exact ⟨r, hr, (inventory_stock_nonneg.2 pharmacyInit "aspirin" 2 (Value.str "Ann")
      "aspirin" ⟨599, 50, false⟩ r rfl rfl hr).2 (by decide)⟩

/-- C10: a drug name that lowercases and strips to the empty string does
not produce the we-do-not-carry message: the empty key substring-matches
the first inventory entry (aspirin) and the price-and-stock description
of that entry is returned. -/
theorem empty_drug_name_matches_first (s : String) (h : normKey s = "") :
    get_drug_info pharmacyInit s = "Aspirin is $5.99 and we have 50 units in stock." ∧
      ¬(get_drug_info pharmacyInit s =
        "Sorry, we don\x27t carry " ++ s ++ ". Would you like me to suggest an alternative?") := by
  have hmain : get_drug_info pharmacyInit s =
      "Aspirin is $5.99 and we have 50 units in stock." := by
    unfold get_drug_info
    rw [h]
    rfl
  refine ⟨hmain, ?_⟩
  rw [hmain]
  intro heq
  obtain ⟨l⟩ := s
  have h2 := congrArg (fun t : String => t.data.head?) heq
  exact absurd (Option.some.inj h2) (by decide)

/-- Witness for `empty_drug_name_matches_first` at a whitespace-only
drug name. -/
theorem empty_drug_name_matches_first_witness :
    normKey " " = "" ∧
      get_drug_info pharmacyInit " " = "Aspirin is $5.99 and we have 50 units in stock." :=
  ⟨rfl, (empty_drug_name_matches_first " " rfl).1⟩

end Bridge
